import Mathlib

/-!
Verification of the CSwiftLogAndroidSupport C shim
(Sources/CSwiftLogAndroidSupport/include/shim.c and
Sources/CSwiftLogAndroidSupport/include/CSwiftLogAndroidSupport.h).

The shim is six exported one-line functions, each forwarding to a single
C standard-library stdio primitive.  We embed it in two layers:

1. A shallow embedding: the platform stdio primitives the shim forwards to
   (stdout, stderr, flockfile, funlockfile, fwrite, fflush) are fields of a
   `Platform` structure; stateful primitives pass an abstract platform state
   explicitly.  Each `shim_*` definition is the direct translation of the
   corresponding C function body.

2. A small deep embedding of the straight-line C fragment the shim bodies
   live in (parameter references, primitive calls, return/expression
   statements, plus the branch and loop forms the bodies do NOT use), with
   per-body ASTs translated from shim.c, a static analysis counting
   primitive calls, branches and loops, and a fuel-indexed interpreter over
   possibly non-terminating primitives.
-/

/-- The platform stdio primitives that shim.c forwards to, as an abstract
interface.  `H` is the opaque stream-handle type (`void *` / `FILE *`),
`B` the buffer-pointer type (`const void *`), and `σ` the state of the C
runtime's streams.  `fwrite` returns the number of elements written,
`fflush` an `int` status code; `flockfile` / `funlockfile` only change
stream state. -/
structure Platform (H B σ : Type) where
  stdout : H
  stderr : H
  flockfile : H → σ → σ
  funlockfile : H → σ → σ
  fwrite : B → Nat → Nat → H → σ → Nat × σ
  fflush : H → σ → Int × σ

/-- shim.c line 3-5: `void *shim_stdout(void) { return stdout; }`. -/
def shim_stdout {H B σ : Type} (pl : Platform H B σ) : H :=
  pl.stdout

/-- shim.c line 7-9: `void *shim_stderr(void) { return stderr; }`. -/
def shim_stderr {H B σ : Type} (pl : Platform H B σ) : H :=
  pl.stderr

/-- shim.c line 11-13: `void shim_flockfile(void *file) { flockfile(file); }`. -/
def shim_flockfile {H B σ : Type} (pl : Platform H B σ) (file : H) (s : σ) : σ :=
  pl.flockfile file s

/-- shim.c line 15-17: `void shim_funlockfile(void *file) { funlockfile(file); }`. -/
def shim_funlockfile {H B σ : Type} (pl : Platform H B σ) (file : H) (s : σ) : σ :=
  pl.funlockfile file s

/-- shim.c line 19-21:
`size_t shim_fwrite(const void *ptr, size_t size, size_t count, void *file)
\x7b return fwrite(ptr, size, count, file); \x7d`. -/
def shim_fwrite {H B σ : Type} (pl : Platform H B σ)
    (ptr : B) (size count : Nat) (file : H) (s : σ) : Nat × σ :=
  pl.fwrite ptr size count file s

/-- shim.c line 23-25: `int shim_fflush(void *file) { return fflush(file); }`. -/
def shim_fflush {H B σ : Type} (pl : Platform H B σ) (file : H) (s : σ) : Int × σ :=
  pl.fflush file s

/-! ## Deep embedding of the shim function bodies -/

/-- The six platform primitives named in shim.c. -/
inductive Prim
  | primStdout
  | primStderr
  | primFlockfile
  | primFunlockfile
  | primFwrite
  | primFflush
deriving DecidableEq, Repr

/-- Expressions of the straight-line C fragment the shim bodies use: a
reference to the i-th function parameter, or a call of a platform primitive
whose arguments are parameter references (every call site in shim.c passes
its parameters through verbatim). -/
inductive Expr
  | param (i : Nat)
  | call (p : Prim) (args : List Nat)
deriving DecidableEq, Repr

/-- Statements: `return e;`, an expression statement `e;`, sequencing, and
the branching and looping forms of C (`if`/`else`, `while`).  The last three
are part of the language but are never used by any shim body; including them
makes the branch/loop counts below meaningful. -/
inductive Stmt
  | ret (e : Expr)
  | exprStmt (e : Expr)
  | seq (a b : Stmt)
  | ifElse (c : Expr) (t f : Stmt)
  | while (c : Expr) (b : Stmt)
deriving DecidableEq, Repr

/-- Number of primitive calls in an expression. -/
def Expr.primCalls : Expr → Nat
  | .param _ => 0
  | .call _ _ => 1

/-- Number of primitive calls in a statement. -/
def Stmt.primCalls : Stmt → Nat
  | .ret e => e.primCalls
  | .exprStmt e => e.primCalls
  | .seq a b => a.primCalls + b.primCalls
  | .ifElse c t f => c.primCalls + t.primCalls + f.primCalls
  | .while c b => c.primCalls + b.primCalls

/-- Number of branch constructs (`if`/`else`) in a statement. -/
def Stmt.branchCount : Stmt → Nat
  | .ret _ => 0
  | .exprStmt _ => 0
  | .seq a b => a.branchCount + b.branchCount
  | .ifElse _ t f => 1 + t.branchCount + f.branchCount
  | .while _ b => b.branchCount

/-- Number of loop constructs (`while`) in a statement. -/
def Stmt.loopCount : Stmt → Nat
  | .ret _ => 0
  | .exprStmt _ => 0
  | .seq a b => a.loopCount + b.loopCount
  | .ifElse _ t f => t.loopCount + f.loopCount
  | .while _ b => 1 + b.loopCount

/-- Body of `shim_stdout` (shim.c line 3-5): `return stdout;`. -/
def shim_stdout_body : Stmt := .ret (.call .primStdout [])

/-- Body of `shim_stderr` (shim.c line 7-9): `return stderr;`. -/
def shim_stderr_body : Stmt := .ret (.call .primStderr [])

/-- Body of `shim_flockfile` (shim.c line 11-13): `flockfile(file);`. -/
def shim_flockfile_body : Stmt := .exprStmt (.call .primFlockfile [0])

/-- Body of `shim_funlockfile` (shim.c line 15-17): `funlockfile(file);`. -/
def shim_funlockfile_body : Stmt := .exprStmt (.call .primFunlockfile [0])

/-- Body of `shim_fwrite` (shim.c line 19-21):
`return fwrite(ptr, size, count, file);`. -/
def shim_fwrite_body : Stmt := .ret (.call .primFwrite [0, 1, 2, 3])

/-- Body of `shim_fflush` (shim.c line 23-25): `return fflush(file);`. -/
def shim_fflush_body : Stmt := .ret (.call .primFflush [0])

/-- The six shim function bodies, in source order. -/
def shimBodies : List Stmt :=
  [shim_stdout_body, shim_stderr_body, shim_flockfile_body,
   shim_funlockfile_body, shim_fwrite_body, shim_fflush_body]

/-- Semantics of the platform primitives for the interpreter.  `run` may
return `none`, modelling an underlying call that does not terminate (or
aborts); `truthy` is C's notion of a non-zero condition value. -/
structure PrimSem (V σ : Type) where
  run : Prim → List V → σ → Option (V × σ)
  truthy : V → Bool

/-- Look up a list of parameter indices in the actual-argument list. -/
def lookupParams {V : Type} (actuals : List V) : List Nat → Option (List V)
  | [] => some []
  | i :: is =>
    (actuals.get? i).bind fun v =>
      (lookupParams actuals is).map fun vs => v :: vs

/-- Evaluate an expression: a parameter reference reads the actual argument
and leaves the state unchanged; a call looks up its arguments and runs the
primitive once. -/
def evalExpr {V σ : Type} (P : PrimSem V σ) (actuals : List V) :
    Expr → σ → Option (V × σ)
  | .param i, s => (actuals.get? i).map fun v => (v, s)
  | .call p args, s => (lookupParams actuals args).bind fun vs => P.run p vs s

/-- Fuel-indexed big-step interpreter for statements.  The result is `none`
when fuel runs out or an underlying primitive does not terminate, otherwise
`some (r, s)` where `r` is `some v` when the statement returned `v`. -/
def evalStmt {V σ : Type} (P : PrimSem V σ) (actuals : List V) :
    Nat → Stmt → σ → Option (Option V × σ)
  | 0, _, _ => none
  | _ + 1, .ret e, s =>
    (evalExpr P actuals e s).map fun vs => (some vs.1, vs.2)
  | _ + 1, .exprStmt e, s =>
    (evalExpr P actuals e s).map fun vs => (none, vs.2)
  | fuel + 1, .seq a b, s =>
    (evalStmt P actuals fuel a s).bind fun rs =>
      match rs.1 with
      | some v => some (some v, rs.2)
      | none => evalStmt P actuals fuel b rs.2
  | fuel + 1, .ifElse c t f, s =>
    (evalExpr P actuals c s).bind fun vs =>
      if P.truthy vs.1 then evalStmt P actuals fuel t vs.2
      else evalStmt P actuals fuel f vs.2
  | fuel + 1, .while c b, s =>
    (evalExpr P actuals c s).bind fun vs =>
      if P.truthy vs.1 then
        (evalStmt P actuals fuel b vs.2).bind fun rs =>
          match rs.1 with
          | some v => some (some v, rs.2)
          | none => evalStmt P actuals fuel (.while c b) rs.2
      else some (none, vs.2)

/-! ## The exported boundary -/

/-- The functions declared in CSwiftLogAndroidSupport.h lines 9-15: the
complete exported surface of the shim. -/
inductive ShimExport
  | expStdout
  | expStderr
  | expFlockfile
  | expFunlockfile
  | expFwrite
  | expFflush
deriving DecidableEq, Repr

/-- Modelled from the spec: the operations the spec's external-interface
section enumerates as the boundary ("obtain the standard-output handle,
obtain the standard-error handle, acquire exclusive access to a given
stream handle, release exclusive access to a given stream handle, write a
buffer of given element size and count to a stream handle (returning
elements written), and flush a stream handle (returning a status code)"). -/
inductive SpecOp
  | obtainStdoutHandle
  | obtainStderrHandle
  | acquireStreamAccess
  | releaseStreamAccess
  | writeBufferToStream
  | flushStream
deriving DecidableEq, Repr

/-- Which enumerated spec operation each exported function implements. -/
def exportSpecOp : ShimExport → SpecOp
  | .expStdout => .obtainStdoutHandle
  | .expStderr => .obtainStderrHandle
  | .expFlockfile => .acquireStreamAccess
  | .expFunlockfile => .releaseStreamAccess
  | .expFwrite => .writeBufferToStream
  | .expFflush => .flushStream

/-- Which exported function implements each enumerated spec operation. -/
def specOpExport : SpecOp → ShimExport
  | .obtainStdoutHandle => .expStdout
  | .obtainStderrHandle => .expStderr
  | .acquireStreamAccess => .expFlockfile
  | .releaseStreamAccess => .expFunlockfile
  | .writeBufferToStream => .expFwrite
  | .flushStream => .expFflush

/-- The body (in the deep embedding) of each exported function. -/
def exportBody : ShimExport → Stmt
  | .expStdout => shim_stdout_body
  | .expStderr => shim_stderr_body
  | .expFlockfile => shim_flockfile_body
  | .expFunlockfile => shim_funlockfile_body
  | .expFwrite => shim_fwrite_body
  | .expFflush => shim_fflush_body

/-! ## Concrete platforms used by the witnesses -/

/-- A concrete platform instance (handles and buffers are numbers, the
stream state a single counter) whose `fwrite` reports a short write (one
element fewer than requested) and whose `fflush` reports status 1. -/
def plShort : Platform Nat Nat Nat where
  stdout := 1
  stderr := 2
  flockfile := fun _ s => s + 10
  funlockfile := fun _ s => s + 100
  fwrite := fun _ _ count _ s => (count - 1, s + count)
  fflush := fun _ s => (1, s)

/-- A second concrete platform with the same standard-stream handles as
`plShort` but entirely different behaviour of every other primitive. -/
def plOther : Platform Nat Nat Nat where
  stdout := 1
  stderr := 2
  flockfile := fun _ s => s * 3
  funlockfile := fun _ s => s * 5
  fwrite := fun _ _ count _ s => (count, s)
  fflush := fun _ s => (0, s + 7)

/-! ## Claims -/

/-- Claim C1: for every buffer pointer, element size, element count and
stream handle, `shim_fwrite` returns exactly the value that the underlying
platform `fwrite` returns on the same arguments in the same order, and has
the same effect on the stream state. -/
theorem shim_fwrite_passthrough {H B σ : Type} (pl : Platform H B σ)
    (ptr : B) (size count : Nat) (file : H) (s : σ) :
    shim_fwrite pl ptr size count file s = pl.fwrite ptr size count file s :=
  rfl

/-- Claim C2: for every stream handle, `shim_fflush` returns exactly the
status code that the underlying platform `fflush` returns on the same
argument, and has the same effect on the stream state. -/
theorem shim_fflush_passthrough {H B σ : Type} (pl : Platform H B σ)
    (file : H) (s : σ) :
    shim_fflush pl file s = pl.fflush file s :=
  rfl

/-- Claim C3: `shim_stdout` returns exactly the platform's standard-output
handle and `shim_stderr` returns exactly the platform's standard-error
handle. -/
theorem shim_stdout_stderr_passthrough {H B σ : Type} (pl : Platform H B σ) :
    shim_stdout pl = pl.stdout ∧ shim_stderr pl = pl.stderr :=
  ⟨rfl, rfl⟩

/-- Claim C4: errors pass through untranslated.  Whenever the underlying
write primitive reports a short write, `shim_fwrite` returns that same
short count (and state) unchanged; whenever the underlying flush primitive
returns a non-zero status, `shim_fflush` returns that same status (and
state) unchanged. -/
theorem shim_error_passthrough {H B σ : Type} (pl : Platform H B σ)
    (ptr : B) (size count : Nat) (file : H) (s : σ) :
    ((pl.fwrite ptr size count file s).1 < count →
      shim_fwrite pl ptr size count file s = pl.fwrite ptr size count file s) ∧
    ((pl.fflush file s).1 ≠ 0 →
      shim_fflush pl file s = pl.fflush file s) :=
  ⟨fun _ => rfl, fun _ => rfl⟩

/-- Witness for C4: on the concrete platform `plShort` with two elements
requested, the underlying write is short (1 < 2) and the underlying flush
status is 1 ≠ 0, and the shim returns both unchanged. -/
theorem shim_error_passthrough_witness :
    shim_fwrite plShort 5 1 2 1 0 = plShort.fwrite 5 1 2 1 0 ∧
    shim_fflush plShort 1 0 = plShort.fflush 1 0 :=
  ⟨(shim_error_passthrough plShort 5 1 2 1 0).1 (by decide),
   (shim_error_passthrough plShort 5 1 2 1 0).2 (by decide)⟩

/-- Claim C5: `shim_flockfile` and `shim_funlockfile` forward directly to
the platform's per-stream lock primitive on the same handle; the state
transformation observed through the shim is exactly that of the underlying
platform stream-locking primitive, with nothing added. -/
theorem shim_lock_unlock_forward {H B σ : Type} (pl : Platform H B σ)
    (file : H) (s : σ) :
    shim_flockfile pl file s = pl.flockfile file s ∧
    shim_funlockfile pl file s = pl.funlockfile file s :=
  ⟨rfl, rfl⟩

/-- Claim C6: the shim keeps no state of its own and adds no behaviour:
every one of the six shim functions is exactly the single underlying
primitive applied to the unchanged arguments (in particular the stream
handle is passed through untouched, and the handles returned are the
platform's own). -/
theorem shim_stateless_frame {H B σ : Type} (pl : Platform H B σ)
    (ptr : B) (size count : Nat) (file : H) (s : σ) :
    shim_stdout pl = pl.stdout ∧
    shim_stderr pl = pl.stderr ∧
    shim_flockfile pl file s = pl.flockfile file s ∧
    shim_funlockfile pl file s = pl.funlockfile file s ∧
    shim_fwrite pl ptr size count file s = pl.fwrite ptr size count file s ∧
    shim_fflush pl file s = pl.fflush file s :=
  ⟨rfl, rfl, rfl, rfl, rfl, rfl⟩

/-- Claim C7: the exported boundary is exactly the operations the spec
enumerates: the correspondence `exportSpecOp` between the functions
declared in the header and the enumerated operations is a bijection (with
inverse `specOpExport`), so every exported function is one of the
enumerated operations and every enumerated operation is exported, each
exactly once. -/
theorem shim_boundary_exact :
    (∀ e : ShimExport, specOpExport (exportSpecOp e) = e) ∧
    (∀ op : SpecOp, exportSpecOp (specOpExport op) = op) :=
  ⟨fun e => by cases e <;> rfl, fun op => by cases op <;> rfl⟩

/-- Claim C8: `shim_stdout` and `shim_stderr` are deterministic and depend
only on the platform's standard-stream globals: two calls on the same
platform return equal handles, and any two platforms agreeing on those
globals (however much the rest of their behaviour differs) yield equal
shim results. -/
theorem shim_handle_determinism {H B σ : Type} (pl₁ pl₂ : Platform H B σ)
    (hout : pl₁.stdout = pl₂.stdout) (herr : pl₁.stderr = pl₂.stderr) :
    shim_stdout pl₁ = shim_stdout pl₁ ∧
    shim_stderr pl₁ = shim_stderr pl₁ ∧
    shim_stdout pl₁ = shim_stdout pl₂ ∧
    shim_stderr pl₁ = shim_stderr pl₂ :=
  ⟨rfl, rfl, hout, herr⟩

/-- Witness for C8: `plShort` and `plOther` share the standard-stream
handles but differ in every other primitive, and the shim returns the same
handles on both. -/
theorem shim_handle_determinism_witness :
    shim_stdout plShort = shim_stdout plOther ∧
    shim_stderr plShort = shim_stderr plOther :=
  ⟨(shim_handle_determinism plShort plOther (by decide) (by decide)).2.2.1,
   (shim_handle_determinism plShort plOther (by decide) (by decide)).2.2.2⟩

/-- Claim C9: every shim function body is straight-line code with no
branches, no loops, and exactly one primitive call, and (in the
fuel-indexed semantics, for any fuel at all beyond zero) it evaluates to
exactly the result of that single underlying primitive call — so in
particular it terminates whenever that underlying call terminates. -/
theorem shim_bodies_single_call :
    (∀ b ∈ shimBodies, b.branchCount = 0 ∧ b.loopCount = 0 ∧ b.primCalls = 1) ∧
    (∀ (V σ : Type) (P : PrimSem V σ) (fuel : Nat) (s : σ)
        (v₀ v₁ v₂ v₃ : V),
      evalStmt P [] (fuel + 1) shim_stdout_body s =
        (P.run .primStdout [] s).map (fun r => (some r.1, r.2)) ∧
      evalStmt P [] (fuel + 1) shim_stderr_body s =
        (P.run .primStderr [] s).map (fun r => (some r.1, r.2)) ∧
      evalStmt P [v₀] (fuel + 1) shim_flockfile_body s =
        (P.run .primFlockfile [v₀] s).map (fun r => (none, r.2)) ∧
      evalStmt P [v₀] (fuel + 1) shim_funlockfile_body s =
        (P.run .primFunlockfile [v₀] s).map (fun r => (none, r.2)) ∧
      evalStmt P [v₀, v₁, v₂, v₃] (fuel + 1) shim_fwrite_body s =
        (P.run .primFwrite [v₀, v₁, v₂, v₃] s).map (fun r => (some r.1, r.2)) ∧
      evalStmt P [v₀] (fuel + 1) shim_fflush_body s =
        (P.run .primFflush [v₀] s).map (fun r => (some r.1, r.2))) :=
  ⟨by decide, fun V σ P fuel s v₀ v₁ v₂ v₃ =>
    ⟨rfl, rfl, rfl, rfl, rfl, rfl⟩⟩

/-- Claim C10: as long as the platform's `fwrite` obeys the C standard's
contract of never reporting more elements written than requested,
`shim_fwrite` never reports more elements written than requested either. -/
theorem shim_fwrite_le_count {H B σ : Type} (pl : Platform H B σ)
    (hstd : ∀ (ptr : B) (size count : Nat) (file : H) (s : σ),
      (pl.fwrite ptr size count file s).1 ≤ count)
    (ptr : B) (size count : Nat) (file : H) (s : σ) :
    (shim_fwrite pl ptr size count file s).1 ≤ count :=
  hstd ptr size count file s

/-- Witness for C10: `plShort` satisfies the C-standard contract
(it writes `count - 1 ≤ count` elements), and the shim's report on a
concrete call is within the requested count. -/
theorem shim_fwrite_le_count_witness :
    (shim_fwrite plShort 5 1 2 1 0).1 ≤ 2 :=
  shim_fwrite_le_count plShort
    (fun _ _ count _ _ => Nat.sub_le count 1) 5 1 2 1 0
